import Mathlib

/-!
Verification of the work-order intervention lifecycle and reconciliation
engine of the reports-app repository.

The definitions below are a shallow embedding of the relevant TypeScript
source files:
  - src/lib/formConfig.ts          (intervention registry, AvailableTypes)
  - src/lib/workOrderHelpers.ts    (second AvailableTypes implementation)
  - src/app/api/work-orders/[id]/form-submission/route.ts
  - src/app/api/work-orders/[id]/complete/route.ts  (completion route,
    battery-swaps route and parts route share this file in the source)
  - src/lib/schema.ts              (database row shapes)

Database access is modelled by explicit state passing: each route handler
becomes a pure function from the rows it reads (and the request data) to
the rows it writes plus the JSON response it returns.  Timestamps are
natural numbers; the `new Date()` calls of the source become an explicit
`now` parameter.  JSON responses are modelled as a record of the fields
the handlers actually emit, plus the HTTP status code.
-/

/-- The four intervention (form) types of `FORM_CONFIG` in
src/lib/formConfig.ts. -/
inductive FormType where
  | battery_swap
  | maintenance
  | wind_audit
  | survey
deriving DecidableEq, Repr

/-- The per-type rule record of `FormConfig` in src/lib/formConfig.ts
(the `categories` list is omitted: it is UI data never consulted by the
operations verified here). -/
structure FormConfig where
  name : String
  component : String
  repeatable : Bool
  requiresPartsTracking : Bool
  canCombineWithOthers : Bool
  requiresCategory : Bool
deriving DecidableEq, Repr

/-- The static registry `FORM_CONFIG` of src/lib/formConfig.ts. -/
def FORM_CONFIG : FormType → FormConfig
  | .battery_swap =>
      { name := "Battery Swap", component := "BatterySwapForm",
        repeatable := false, requiresPartsTracking := false,
        canCombineWithOthers := false, requiresCategory := false }
  | .maintenance =>
      { name := "Maintenance", component := "MaintenanceForm",
        repeatable := true, requiresPartsTracking := true,
        canCombineWithOthers := true, requiresCategory := true }
  | .wind_audit =>
      { name := "Wind Audit", component := "WindAuditForm",
        repeatable := false, requiresPartsTracking := true,
        canCombineWithOthers := true, requiresCategory := false }
  | .survey =>
      { name := "Survey", component := "SurveyForm",
        repeatable := false, requiresPartsTracking := false,
        canCombineWithOthers := true, requiresCategory := false }

/-- Iteration order of `Object.entries(FORM_CONFIG)`: the insertion order
of the object literal in src/lib/formConfig.ts. -/
def formTypeList : List FormType :=
  [.battery_swap, .maintenance, .wind_audit, .survey]

/-- One element of the `currentForms` argument of
`getAvailableFormTypes` in src/lib/formConfig.ts
(`{ formType: FormType; category?: string }`). -/
structure CurrentForm where
  formType : FormType
  category : Option String
deriving DecidableEq, Repr

/-- One element of the result list of `getAvailableFormTypes` in
src/lib/formConfig.ts. -/
structure AvailableEntry where
  type : FormType
  label : String
  requiresCategory : Bool
deriving DecidableEq, Repr

/-- The filter callback inside `getAvailableFormTypes`
(src/lib/formConfig.ts lines 157-180), extracted as a named function. -/
def availableFilter (currentForms : List CurrentForm) (t : FormType) : Bool :=
  let config := FORM_CONFIG t
  let existingForms := currentForms.filter fun f => f.formType == t
  if !config.repeatable && existingForms.length != 0 then false
  else if !config.canCombineWithOthers && currentForms.length != 0 then false
  else if (currentForms.any fun f => !(FORM_CONFIG f.formType).canCombineWithOthers)
      && currentForms.length != 0 then false
  else true

/-- `getAvailableFormTypes` of src/lib/formConfig.ts: the registry-level
`AvailableTypes` operation. -/
def getAvailableFormTypes (currentForms : List CurrentForm) :
    List AvailableEntry :=
  (formTypeList.filter (availableFilter currentForms)).map fun t =>
    { type := t, label := (FORM_CONFIG t).name,
      requiresCategory := (FORM_CONFIG t).requiresCategory }

/-- `requiresPartsTracking` of src/lib/formConfig.ts (lines 194-196):
whether a form type participates in parts accounting. -/
def requiresPartsTracking (formType : FormType) : Bool :=
  (FORM_CONFIG formType).requiresPartsTracking

/-- One element of the `completed` list consumed by the
src/lib/workOrderHelpers.ts functions (`CompletedForm`; the opaque
`data` field is omitted). -/
structure CompletedForm where
  id : Nat
  type : FormType
  submittedAt : Nat
deriving DecidableEq, Repr

/-- `getAvailableFormTypes` of src/lib/workOrderHelpers.ts (lines
96-127), the database-facing second implementation: battery_swap blocks
everything, maintenance is always offered, wind_audit only when absent,
survey never (commented out in the source). -/
def helpersGetAvailableFormTypes (completed : List CompletedForm) :
    List FormType :=
  if completed.any fun f => f.type == FormType.battery_swap then []
  else
    let hasWindAudit := completed.any fun f => f.type == FormType.wind_audit
    [FormType.maintenance] ++ (if !hasWindAudit then [FormType.wind_audit] else [])

/-- The `status` column of the `work_orders` table
(src/lib/schema.ts: enum `['in_progress', 'completed']`).  `in_progress`
is the spec's `Open` state. -/
inductive Status where
  | in_progress
  | completed
deriving DecidableEq, Repr

/-- A row of the `work_orders` table (src/lib/schema.ts), restricted to
the columns the verified handlers read or write.  `completedAt` is an
optional timestamp (nullable column). -/
structure WorkOrder where
  id : Nat
  workOrderId : String
  technicianUserId : String
  status : Status
  completedAt : Option Nat
  syncedToAirtable : Bool
deriving DecidableEq, Repr

/-- The spec's `Open` state: status `in_progress`. -/
def WorkOrder.isOpen (wo : WorkOrder) : Prop :=
  wo.status = Status.in_progress

/-- The spec's `LocallyComplete` state: completed locally, completion
timestamp stamped, not yet synced to the external system. -/
def WorkOrder.isLocallyComplete (wo : WorkOrder) : Prop :=
  wo.status = Status.completed ∧ wo.syncedToAirtable = false ∧
    wo.completedAt.isSome = true

/-- The spec's `Reconciled` state: completed and synced. -/
def WorkOrder.isReconciled (wo : WorkOrder) : Prop :=
  wo.status = Status.completed ∧ wo.syncedToAirtable = true

/-- Data invariant maintained by every writer of the `work_orders` table:
the synced flag is only ever set on an already-completed work order (the
complete route sets it after marking completion), and a completed work
order always carries a completion timestamp (every writer that sets
`status := completed` also sets `completedAt`). -/
def WorkOrder.WF (wo : WorkOrder) : Prop :=
  (wo.syncedToAirtable = true → wo.status = Status.completed) ∧
    (wo.status = Status.completed → wo.completedAt.isSome = true)

/-- Outcome of the single n8n webhook call made by the complete route:
`ack` for a 2xx response, `deliveryError` (with the human-readable cause)
for a thrown fetch error, a timeout, or a non-2xx response — the route's
catch block treats all of these uniformly. -/
inductive DeliveryOutcome where
  | ack
  | deliveryError (msg : String)
deriving DecidableEq, Repr

/-- The JSON body (fields actually emitted by the verified handlers)
together with the HTTP status code of a `Response.json` call. -/
structure JsonResponse where
  httpStatus : Nat
  success : Option Bool := none
  workOrderCompleted : Option Bool := none
  synced : Option Bool := none
  alreadyDone : Option Bool := none
  canRetry : Option Bool := none
  error : Option String := none
  message : Option String := none
  submissionId : Option Nat := none
  partsCount : Option Nat := none
deriving DecidableEq, Repr

/-- Step 4 of the complete route
(src/app/api/work-orders/[id]/complete/route.ts lines 77-95): mark the
work order completed, stamping `completedAt`, unless it is already
completed — the spec's `MarkLocallyComplete`. -/
def markLocallyCompleteStep (wo : WorkOrder) (now : Nat) : WorkOrder :=
  if wo.status ≠ Status.completed then
    { wo with status := Status.completed, completedAt := some now }
  else
    wo

/-- The complete route POST handler
(src/app/api/work-orders/[id]/complete/route.ts), modelled from the
ownership check onward (steps 1-3 of the source — auth, id parsing and
the row lookup — are modelled by passing the found row `wo` and the
requesting user's id).  `n8nConfigured` models whether `N8N_WEBHOOK_URL`
is set; `delivery` is the outcome of the webhook call.  Returns the
final work-order row, the JSON response, and whether the webhook was
actually called. -/
def completeRoute (wo : WorkOrder) (userId : String) (n8nConfigured : Bool)
    (now : Nat) (delivery : DeliveryOutcome) :
    WorkOrder × JsonResponse × Bool :=
  if wo.technicianUserId ≠ userId then
    (wo, { httpStatus := 403,
           error := some "You do not have permission to complete this work order" },
     false)
  else if wo.status = Status.completed ∧ wo.syncedToAirtable = true then
    (wo, { httpStatus := 200, success := some true,
           workOrderCompleted := some true, synced := some true,
           message := some "Work order already completed and synced",
           alreadyDone := some true },
     false)
  else
    let wo2 := markLocallyCompleteStep wo now
    if n8nConfigured = false then
      (wo2, { httpStatus := 500, error := some "n8n webhook not configured",
              workOrderCompleted := some true, synced := some false },
       false)
    else
      match delivery with
      | .ack =>
          ({ wo2 with syncedToAirtable := true },
           { httpStatus := 200, success := some true,
             workOrderCompleted := some true, synced := some true,
             message := some "Work order completed and synced to Airtable successfully" },
           true)
      | .deliveryError msg =>
          (wo2,
           { httpStatus := 207, success := some false,
             workOrderCompleted := some true, synced := some false,
             error := some "Failed to sync to Airtable",
             message := some msg, canRetry := some true },
           true)

/-- A row of the `form_submissions` table (src/lib/schema.ts), restricted
to the columns the verified handlers read or write.  `formType` is kept
as the raw string of the database enum; `formData` is the opaque JSONB
payload, stored verbatim. -/
structure FormSubmissionRow where
  id : Nat
  workOrderId : Nat
  formType : String
  formData : String
  submittedAt : Nat
deriving DecidableEq, Repr

/-- The database state read and written by the form-submission route:
the looked-up work order, its existing submissions, and the next serial
id the insert would assign. -/
structure FormSubmissionState where
  workOrder : WorkOrder
  submissions : List FormSubmissionRow
  nextSubmissionId : Nat
deriving DecidableEq, Repr

/-- The static allow-list of the form-submission route
(src/app/api/work-orders/[id]/form-submission/route.ts line 56):
`['maintenance', 'wind_audit', 'survey'].includes(formType)`. -/
def validFormTypes : List String := ["maintenance", "wind_audit", "survey"]

/-- The form-submission route POST handler
(src/app/api/work-orders/[id]/form-submission/route.ts), modelled from
the body parse onward (auth, id parsing and the row lookup are modelled
by passing the found row inside `st` and the requesting user's id).
`formType` is the submitted string (empty string for a missing field,
matching the JS falsiness test); `formData` is `none` when the field is
missing.  Returns the new database state and the JSON response. -/
def formSubmissionRoute (st : FormSubmissionState) (userId : String)
    (formType : String) (formData : Option String) (now : Nat) :
    FormSubmissionState × JsonResponse :=
  if formType = "" ∨ formData = none then
    (st, { httpStatus := 400, error := some "Missing formType or formData" })
  else if validFormTypes.contains formType = false then
    (st, { httpStatus := 400, error := some "Invalid form type" })
  else if st.workOrder.technicianUserId ≠ userId then
    (st, { httpStatus := 403,
           error := some "You do not have permission to submit this form" })
  else
    let row : FormSubmissionRow :=
      { id := st.nextSubmissionId, workOrderId := st.workOrder.id,
        formType := formType, formData := formData.getD "",
        submittedAt := now }
    let wo2 := { st.workOrder with
      status := Status.completed,
      completedAt := some now }
    ({ workOrder := wo2, submissions := st.submissions ++ [row],
       nextSubmissionId := st.nextSubmissionId + 1 },
     { httpStatus := 200, success := some true,
       submissionId := some row.id,
       message := some "Form submitted successfully" })

/-- One entry of the `parts` array in the parts route request body
(`PartData` in the source: `{ formSubmissionId, partName, quantity }`).
`quantity` is an `Int` because the route performs no sign check. -/
structure PartData where
  formSubmissionId : Nat
  partName : String
  quantity : Int
deriving DecidableEq, Repr

/-- A row of the `parts_used` table (src/lib/schema.ts), restricted to
the columns the parts route writes. -/
structure PartsUsedRow where
  id : Nat
  workOrderId : Nat
  formSubmissionId : Nat
  partName : String
  quantity : Int
deriving DecidableEq, Repr

/-- First-occurrence deduplication, the behaviour of
`[...new Set(parts.map((p) => p.formSubmissionId))]` in the parts
route. -/
def dedupFirstAux (seen : List Nat) : List Nat → List Nat
  | [] => []
  | x :: xs =>
      if seen.contains x then dedupFirstAux seen xs
      else x :: dedupFirstAux (x :: seen) xs

/-- The deduplicated `formSubmissionIds` list of the parts route. -/
def collectIds (parts : List PartData) : List Nat :=
  dedupFirstAux [] (parts.map fun p => p.formSubmissionId)

/-- The `findMany(inArray(formSubmissions.id, formSubmissionIds))` query
of the parts route: the stored submissions whose id occurs in the
request. -/
def foundSubs (subs : List FormSubmissionRow) (parts : List PartData) :
    List FormSubmissionRow :=
  subs.filter fun s => (collectIds parts).contains s.id

/-- ASCII whitespace, the characters relevant to the trimming performed
by the routes. -/
def isWsChar (c : Char) : Bool :=
  c = ' ' || c = '\t' || c = '\n' || c = '\r'

/-- Drop leading whitespace from a character list. -/
def dropLeadingWs : List Char → List Char
  | [] => []
  | c :: cs => if isWsChar c then dropLeadingWs cs else c :: cs

/-- Model of the `.trim()` string method used by the route handlers:
remove leading and trailing whitespace. -/
def jsTrim (s : String) : String :=
  String.mk (dropLeadingWs (dropLeadingWs s.data).reverse).reverse

/-- The save loop of the parts route
(src/app/api/work-orders/[id]/complete/route.ts parts handler, lines
487-509): skip an entry whose `partName` is falsy or blank after
trimming, otherwise insert a row with the trimmed name and
`quantity || 1` (a JS-falsy quantity of 0 becomes 1; any other value,
negative included, is stored as given).  `nextId` models the serial
primary key. -/
def savePartsLoop (woId : Nat) (nextId : Nat) :
    List PartData → List PartsUsedRow
  | [] => []
  | p :: rest =>
      if p.partName = "" ∨ jsTrim p.partName = "" then
        savePartsLoop woId nextId rest
      else
        { id := nextId, workOrderId := woId,
          formSubmissionId := p.formSubmissionId,
          partName := jsTrim p.partName,
          quantity := if p.quantity = 0 then 1 else p.quantity } ::
          savePartsLoop woId (nextId + 1) rest

/-- The parts route POST handler (the `AttributeParts` operation;
src/app/api/work-orders/[id]/complete/route.ts parts handler), modelled
from the body parse onward (auth, id parsing and the work-order lookup
are modelled by passing the found row `wo`, the stored submissions
`subs` and the requesting user's id).  Returns the inserted
`parts_used` rows and the JSON response. -/
def partsRoute (wo : WorkOrder) (userId : String)
    (subs : List FormSubmissionRow) (parts : List PartData)
    (nextId : Nat) : List PartsUsedRow × JsonResponse :=
  if wo.technicianUserId ≠ userId then
    ([], { httpStatus := 403,
           error := some "You do not have permission to add parts to this work order" })
  else if parts.length ≠ 0 ∧ (foundSubs subs parts).length ≠ (collectIds parts).length then
    ([], { httpStatus := 404, error := some "Some form submissions not found" })
  else if parts.length ≠ 0 ∧
      (foundSubs subs parts).any (fun s => s.workOrderId ≠ wo.id) then
    ([], { httpStatus := 400,
           error := some "Form submissions do not belong to this work order" })
  else
    let saved := savePartsLoop wo.id nextId parts
    (saved, { httpStatus := 200, success := some true,
              partsCount := some saved.length,
              message := some (toString saved.length ++ " part(s) saved successfully") })

/-! ## Theorems -/

/-- C2: for every work order that is already completed and already synced
(state `Reconciled`), calling the complete route returns the full-success
already-done response immediately, performs no webhook call (third
component `false`) and leaves the work-order row unchanged. -/
theorem C2_reconciled_complete_is_idempotent_noop (wo : WorkOrder)
    (userId : String) (cfg : Bool) (now : Nat) (d : DeliveryOutcome)
    (hOwn : wo.technicianUserId = userId) (hRec : wo.isReconciled) :
    completeRoute wo userId cfg now d =
      (wo,
       { httpStatus := 200, success := some true,
         workOrderCompleted := some true, synced := some true,
         message := some "Work order already completed and synced",
         alreadyDone := some true },
       false) := by
  obtain ⟨h1, h2⟩ := hRec
  simp [completeRoute, hOwn, h1, h2]

/-- Witness for C2 at a concrete reconciled work order. -/
theorem C2_reconciled_complete_is_idempotent_noop_witness :
    completeRoute
      { id := 1, workOrderId := "WO-1", technicianUserId := "t",
        status := Status.completed, completedAt := some 5,
        syncedToAirtable := true } "t" true 9 (.deliveryError "down") =
      ({ id := 1, workOrderId := "WO-1", technicianUserId := "t",
         status := Status.completed, completedAt := some 5,
         syncedToAirtable := true },
       { httpStatus := 200, success := some true,
         workOrderCompleted := some true, synced := some true,
         message := some "Work order already completed and synced",
         alreadyDone := some true },
       false) :=
  C2_reconciled_complete_is_idempotent_noop _ _ _ _ _ rfl ⟨rfl, rfl⟩

/-- C8: on a work order already in the locally-complete state, the
mark-locally-complete step of a second complete call is a no-op (the row,
and in particular `completedAt`, is returned exactly as stamped by the
first call), and the complete route reports the work order as completed
rather than erroring, whatever the webhook configuration and outcome. -/
theorem C8_markLocallyComplete_second_call_noop (wo : WorkOrder)
    (userId : String) (cfg : Bool) (now : Nat) (d : DeliveryOutcome)
    (hOwn : wo.technicianUserId = userId) (hLC : wo.isLocallyComplete) :
    markLocallyCompleteStep wo now = wo ∧
      (completeRoute wo userId cfg now d).1.completedAt = wo.completedAt ∧
      (completeRoute wo userId cfg now d).2.1.workOrderCompleted = some true := by
  obtain ⟨hStatus, hSync, _⟩ := hLC
  have hStep : markLocallyCompleteStep wo now = wo := by
    simp [markLocallyCompleteStep, hStatus]
  refine ⟨hStep, ?_, ?_⟩ <;>
    cases cfg <;> cases d <;>
      simp [completeRoute, hOwn, hStatus, hSync, hStep]

/-- Witness for C8 at a concrete locally-complete work order. -/
theorem C8_markLocallyComplete_second_call_noop_witness :
    markLocallyCompleteStep
      { id := 1, workOrderId := "WO-1", technicianUserId := "t",
        status := Status.completed, completedAt := some 5,
        syncedToAirtable := false } 9 =
      { id := 1, workOrderId := "WO-1", technicianUserId := "t",
        status := Status.completed, completedAt := some 5,
        syncedToAirtable := false } ∧
    (completeRoute
      { id := 1, workOrderId := "WO-1", technicianUserId := "t",
        status := Status.completed, completedAt := some 5,
        syncedToAirtable := false } "t" true 9 .ack).1.completedAt = some 5 ∧
    (completeRoute
      { id := 1, workOrderId := "WO-1", technicianUserId := "t",
        status := Status.completed, completedAt := some 5,
        syncedToAirtable := false } "t" true 9 .ack).2.1.workOrderCompleted = some true :=
  C8_markLocallyComplete_second_call_noop _ _ _ _ _ rfl ⟨rfl, rfl, rfl⟩

/-- C1: when the webhook delivery fails (thrown fetch error, timeout or
non-2xx — all modelled by `deliveryError`), the complete route leaves the
work order locally complete (status completed, completion timestamp set,
synced flag false) and returns the distinguished HTTP 207 partial-success
response with `workOrderCompleted := true`, `synced := false`,
`canRetry := true`, carrying the underlying error message — distinct
from both the 200 full-success shape and any rejection. -/
theorem C1_delivery_failure_leaves_locally_complete (wo : WorkOrder)
    (userId msg : String) (now : Nat)
    (hOwn : wo.technicianUserId = userId) (hWF : wo.WF)
    (hNotRec : ¬ wo.isReconciled) :
    ((completeRoute wo userId true now (.deliveryError msg)).1.isLocallyComplete) ∧
    (completeRoute wo userId true now (.deliveryError msg)).2.1 =
      { httpStatus := 207, success := some false,
        workOrderCompleted := some true, synced := some false,
        error := some "Failed to sync to Airtable",
        message := some msg, canRetry := some true } ∧
    (completeRoute wo userId true now (.deliveryError msg)).2.2 = true := by
  obtain ⟨hWF1, hWF2⟩ := hWF
  have hSync : wo.syncedToAirtable = false := by
    cases hs : wo.syncedToAirtable
    · rfl
    · exact absurd ⟨hWF1 hs, hs⟩ hNotRec
  have hNR : ¬ (wo.status = Status.completed ∧ wo.syncedToAirtable = true) :=
    hNotRec
  cases hstatus : wo.status
  · refine ⟨?_, ?_, ?_⟩ <;>
      simp [completeRoute, markLocallyCompleteStep, WorkOrder.isLocallyComplete,
        hOwn, hSync, hstatus]
  · refine ⟨?_, ?_, ?_⟩ <;>
      simp [completeRoute, markLocallyCompleteStep, WorkOrder.isLocallyComplete,
        hOwn, hSync, hstatus, hWF2 hstatus]

/-- Witness for C1: an open, unsynced work order, failing delivery. -/
theorem C1_delivery_failure_leaves_locally_complete_witness :
    ((completeRoute
      { id := 1, workOrderId := "WO-1", technicianUserId := "t",
        status := Status.in_progress, completedAt := none,
        syncedToAirtable := false } "t" true 9 (.deliveryError "down")).1.isLocallyComplete) ∧
    (completeRoute
      { id := 1, workOrderId := "WO-1", technicianUserId := "t",
        status := Status.in_progress, completedAt := none,
        syncedToAirtable := false } "t" true 9 (.deliveryError "down")).2.1 =
      { httpStatus := 207, success := some false,
        workOrderCompleted := some true, synced := some false,
        error := some "Failed to sync to Airtable",
        message := some "down", canRetry := some true } ∧
    (completeRoute
      { id := 1, workOrderId := "WO-1", technicianUserId := "t",
        status := Status.in_progress, completedAt := none,
        syncedToAirtable := false } "t" true 9 (.deliveryError "down")).2.2 = true :=
  C1_delivery_failure_leaves_locally_complete _ _ _ _ rfl
    ⟨(fun h => nomatch h), (fun h => nomatch h)⟩ (fun h => nomatch h.1)

/-- Every form type occurs in the registry iteration order. -/
theorem mem_formTypeList (t : FormType) : t ∈ formTypeList := by
  cases t <;> decide

/-- When some present intervention's type is non-combinable, the filter
of `getAvailableFormTypes` rejects every candidate type. -/
theorem availableFilter_false_of_nonCombinable (c : List CurrentForm)
    (f : CurrentForm) (hf : f ∈ c)
    (hcomb : (FORM_CONFIG f.formType).canCombineWithOthers = false)
    (t : FormType) : availableFilter c t = false := by
  have hlen : (c.length != 0) = true := by
    cases c
    · cases hf
    · simp
  have hany :
      (c.any fun g => !(FORM_CONFIG g.formType).canCombineWithOthers) = true :=
    List.any_eq_true.mpr ⟨f, hf, by simp [hcomb]⟩
  simp only [availableFilter]
  rw [hany, hlen]
  simp only [Bool.and_self, if_true, ite_self]

/-- Membership in the result of `getAvailableFormTypes`, projected to the
type component, is exactly the filter callback. -/
theorem mem_getAvailableFormTypes_types (c : List CurrentForm)
    (t : FormType) :
    t ∈ (getAvailableFormTypes c).map (fun e => e.type) ↔
      availableFilter c t = true := by
  unfold getAvailableFormTypes
  rw [List.map_map]
  have hmapid :
      ((fun e : AvailableEntry => e.type) ∘ fun t : FormType =>
        ({ type := t, label := (FORM_CONFIG t).name,
           requiresCategory := (FORM_CONFIG t).requiresCategory } :
            AvailableEntry)) = fun t : FormType => t := rfl
  rw [hmapid, List.map_id', List.mem_filter]
  simp [mem_formTypeList]

/-- C5: whenever the interventions already present include one whose
type is non-combinable (`canCombineWithOthers = false`), both
implementations of `AvailableTypes` — `getAvailableFormTypes` of
src/lib/formConfig.ts and the database-facing variant of
src/lib/workOrderHelpers.ts — return the empty set, regardless of which
or how many other interventions are present. -/
theorem C5_nonCombinable_present_blocks_all :
    (∀ c : List CurrentForm,
      (∃ f ∈ c, (FORM_CONFIG f.formType).canCombineWithOthers = false) →
        getAvailableFormTypes c = []) ∧
    (∀ l : List CompletedForm,
      (∃ f ∈ l, (FORM_CONFIG f.type).canCombineWithOthers = false) →
        helpersGetAvailableFormTypes l = []) := by
  constructor
  · rintro c ⟨f, hf, hcomb⟩
    have hall := availableFilter_false_of_nonCombinable c f hf hcomb
    unfold getAvailableFormTypes
    rw [List.filter_eq_nil_iff.mpr]
    · rfl
    · intro t _
      simp [hall t]
  · rintro l ⟨f, hf, hcomb⟩
    have hbs : f.type = FormType.battery_swap := by
      cases h : f.type <;> rw [h] at hcomb <;> first | rfl | cases hcomb
    have hany : (l.any fun g => g.type == FormType.battery_swap) = true :=
      List.any_eq_true.mpr ⟨f, hf, by simp [hbs]⟩
    unfold helpersGetAvailableFormTypes
    rw [if_pos hany]

/-- Witness for C5: a single battery_swap blocks both implementations. -/
theorem C5_nonCombinable_present_blocks_all_witness :
    getAvailableFormTypes [{ formType := FormType.battery_swap, category := none }] = [] ∧
    helpersGetAvailableFormTypes [{ id := 1, type := FormType.battery_swap, submittedAt := 0 }] = [] :=
  ⟨C5_nonCombinable_present_blocks_all.1 _
     ⟨{ formType := FormType.battery_swap, category := none }, by decide, by decide⟩,
   C5_nonCombinable_present_blocks_all.2 _
     ⟨{ id := 1, type := FormType.battery_swap, submittedAt := 0 }, by decide, by decide⟩⟩

/-- C9 counterexample: with only combinable interventions present (one
`maintenance`), the non-combinable candidate `battery_swap` is excluded
by `getAvailableFormTypes` — the claim that no registered type is
excluded on combinability grounds is false. -/
theorem C9_counterexample_battery_swap_excluded :
    (FORM_CONFIG FormType.maintenance).canCombineWithOthers = true ∧
    FormType.battery_swap ∉
      (getAvailableFormTypes
        [{ formType := FormType.maintenance, category := none }]).map
        (fun e => e.type) := by
  constructor
  · rfl
  · decide

/-- With every present intervention combinable, the filter of
`getAvailableFormTypes` reduces to the repeatability check on the
candidate plus the candidate's own combinability check. -/
theorem availableFilter_of_all_combinable (c : List CurrentForm)
    (t : FormType)
    (hAll : ∀ f ∈ c, (FORM_CONFIG f.formType).canCombineWithOthers = true) :
    availableFilter c t =
      (((FORM_CONFIG t).repeatable ||
          ((c.filter fun f => f.formType == t).length == 0)) &&
        ((FORM_CONFIG t).canCombineWithOthers || (c.length == 0))) := by
  have hany :
      (c.any fun g => !(FORM_CONFIG g.formType).canCombineWithOthers) = false := by
    rw [List.any_eq_false]
    intro g hg
    simp [hAll g hg]
  simp only [availableFilter, hany, Bool.false_and, Bool.false_eq_true,
    if_false]
  cases hrep : (FORM_CONFIG t).repeatable <;>
    cases hcomb : (FORM_CONFIG t).canCombineWithOthers <;>
      cases hex : ((c.filter fun f => f.formType == t).length == 0) <;>
        cases hlen : (c.length == 0) <;>
          simp_all [Nat.ne_zero_iff_zero_lt, Nat.pos_iff_ne_zero]

/-- C9 (amended): for a list of existing interventions whose types are
all combinable, `getAvailableFormTypes` offers a combinable candidate
type exactly when it is repeatable or not yet present; but additionally
— contrary to the original claim — a non-combinable candidate type (such
as battery_swap) is excluded whenever at least one intervention is
present. -/
theorem C9_amended_candidate_combinability_checked (c : List CurrentForm)
    (hAll : ∀ f ∈ c, (FORM_CONFIG f.formType).canCombineWithOthers = true) :
    (∀ t : FormType, (FORM_CONFIG t).canCombineWithOthers = true →
      (t ∈ (getAvailableFormTypes c).map (fun e => e.type) ↔
        ((FORM_CONFIG t).repeatable = true ∨
          t ∉ c.map (fun f => f.formType)))) ∧
    (∀ t : FormType, (FORM_CONFIG t).canCombineWithOthers = false →
      c ≠ [] → t ∉ (getAvailableFormTypes c).map (fun e => e.type)) := by
  have hmem : ∀ t : FormType,
      ((c.filter fun f => f.formType == t).length == 0) = true ↔
        t ∉ c.map (fun f => f.formType) := by
    intro t
    rw [beq_iff_eq, List.length_eq_zero, List.filter_eq_nil_iff]
    constructor
    · intro h ht
      obtain ⟨f, hf, hft⟩ := List.mem_map.mp ht
      exact absurd (by simp [hft]) (h f hf)
    · intro h f hf
      simp only [beq_iff_eq]
      intro hft
      exact h (List.mem_map.mpr ⟨f, hf, hft⟩)
  constructor
  · intro t hcomb
    rw [mem_getAvailableFormTypes_types,
      availableFilter_of_all_combinable c t hAll, hcomb]
    cases hrep : (FORM_CONFIG t).repeatable
    · simp only [Bool.false_or, Bool.true_or, Bool.and_true]
      rw [hmem t]
      simp
    · simp
  · intro t hcomb hne
    rw [mem_getAvailableFormTypes_types,
      availableFilter_of_all_combinable c t hAll, hcomb]
    have hlen : (c.length == 0) = false := by
      cases c
      · exact absurd rfl hne
      · rfl
    simp [hlen]

/-- Witness for C9 (amended) at the singleton maintenance list: both
parts applied to concrete types. -/
theorem C9_amended_candidate_combinability_checked_witness :
    (FormType.wind_audit ∈
      (getAvailableFormTypes
        [{ formType := FormType.maintenance, category := none }]).map
        (fun e => e.type) ↔
      ((FORM_CONFIG FormType.wind_audit).repeatable = true ∨
        FormType.wind_audit ∉
          [({ formType := FormType.maintenance, category := none } :
              CurrentForm)].map (fun f => f.formType))) ∧
    FormType.battery_swap ∉
      (getAvailableFormTypes
        [{ formType := FormType.maintenance, category := none }]).map
        (fun e => e.type) :=
  ⟨(C9_amended_candidate_combinability_checked _ (by decide)).1
      FormType.wind_audit rfl,
   (C9_amended_candidate_combinability_checked _ (by decide)).2
      FormType.battery_swap rfl (by decide)⟩

/-- C10: every successful form submission — the work order's prior
status being arbitrary, an already-completed one included — sets the
work order's status to completed, overwrites `completedAt` with the
current time, and appends exactly the submitted row. -/
theorem C10_successful_submission_recompletes (st : FormSubmissionState)
    (userId ft d : String) (now : Nat)
    (hSuccess :
      (formSubmissionRoute st userId ft (some d) now).2.success = some true) :
    (formSubmissionRoute st userId ft (some d) now).1.workOrder.status =
        Status.completed ∧
    (formSubmissionRoute st userId ft (some d) now).1.workOrder.completedAt =
        some now ∧
    (formSubmissionRoute st userId ft (some d) now).1.submissions =
      st.submissions ++
        [{ id := st.nextSubmissionId, workOrderId := st.workOrder.id,
           formType := ft, formData := d, submittedAt := now }] := by
  by_cases h1 : ft = ""
  · simp [formSubmissionRoute, h1] at hSuccess
  · by_cases h2 : ft ∈ validFormTypes
    · by_cases h3 : st.workOrder.technicianUserId = userId
      · refine ⟨?_, ?_, ?_⟩ <;> simp [formSubmissionRoute, h1, h2, h3]
      · simp [formSubmissionRoute, h1, h2, h3] at hSuccess
    · simp [formSubmissionRoute, h1, h2] at hSuccess

/-- Witness for C10: a submission against an already-completed work
order re-stamps `completedAt` and appends the row. -/
theorem C10_successful_submission_recompletes_witness :
    (formSubmissionRoute
      { workOrder :=
          { id := 1, workOrderId := "WO-1", technicianUserId := "t",
            status := Status.completed, completedAt := some 5,
            syncedToAirtable := false },
        submissions := [], nextSubmissionId := 1 }
      "t" "maintenance" (some "d") 10).1.workOrder.status = Status.completed ∧
    (formSubmissionRoute
      { workOrder :=
          { id := 1, workOrderId := "WO-1", technicianUserId := "t",
            status := Status.completed, completedAt := some 5,
            syncedToAirtable := false },
        submissions := [], nextSubmissionId := 1 }
      "t" "maintenance" (some "d") 10).1.workOrder.completedAt = some 10 ∧
    (formSubmissionRoute
      { workOrder :=
          { id := 1, workOrderId := "WO-1", technicianUserId := "t",
            status := Status.completed, completedAt := some 5,
            syncedToAirtable := false },
        submissions := [], nextSubmissionId := 1 }
      "t" "maintenance" (some "d") 10).1.submissions =
      [{ id := 1, workOrderId := 1, formType := "maintenance",
         formData := "d", submittedAt := 10 }] :=
  C10_successful_submission_recompletes _ _ _ _ _ (by decide)

/-- C3 counterexample: a work order that is not Open (status completed)
still accepts a form submission — the response is 200/success and an
intervention row is appended, where the claim requires an InvalidState
failure and no row. -/
theorem C3_counterexample_completed_accepts_submission :
    (let st : FormSubmissionState :=
      { workOrder :=
          { id := 1, workOrderId := "WO-1", technicianUserId := "t",
            status := Status.completed, completedAt := some 5,
            syncedToAirtable := false },
        submissions := [], nextSubmissionId := 1 }
     let r := formSubmissionRoute st "t" "maintenance" (some "d") 10
     st.workOrder.status ≠ Status.in_progress ∧
       r.2.httpStatus = 200 ∧ r.2.success = some true ∧
       r.1.submissions.length = 1) := by
  decide

/-- C3 (amended): the form-submission handler checks ownership and the
static type list but performs no lifecycle-state precondition: a valid
submission on an owned work order of ANY status (completed included)
appends an intervention row and returns success — no InvalidState error
exists in the handler. -/
theorem C3_amended_no_state_precondition (st : FormSubmissionState)
    (userId ft d : String) (now : Nat)
    (hOwn : st.workOrder.technicianUserId = userId)
    (hft : ft ∈ validFormTypes) :
    (formSubmissionRoute st userId ft (some d) now).2.httpStatus = 200 ∧
    (formSubmissionRoute st userId ft (some d) now).2.success = some true ∧
    (formSubmissionRoute st userId ft (some d) now).1.submissions.length =
      st.submissions.length + 1 := by
  have hne : ft ≠ "" := by
    rintro rfl
    simp [validFormTypes] at hft
  refine ⟨?_, ?_, ?_⟩ <;> simp [formSubmissionRoute, hne, hft, hOwn]

/-- Witness for C3 (amended): concrete completed work order. -/
theorem C3_amended_no_state_precondition_witness :
    (formSubmissionRoute
      { workOrder :=
          { id := 1, workOrderId := "WO-1", technicianUserId := "t",
            status := Status.completed, completedAt := some 5,
            syncedToAirtable := false },
        submissions := [], nextSubmissionId := 1 }
      "t" "survey" (some "d") 10).2.httpStatus = 200 ∧
    (formSubmissionRoute
      { workOrder :=
          { id := 1, workOrderId := "WO-1", technicianUserId := "t",
            status := Status.completed, completedAt := some 5,
            syncedToAirtable := false },
        submissions := [], nextSubmissionId := 1 }
      "t" "survey" (some "d") 10).2.success = some true ∧
    (formSubmissionRoute
      { workOrder :=
          { id := 1, workOrderId := "WO-1", technicianUserId := "t",
            status := Status.completed, completedAt := some 5,
            syncedToAirtable := false },
        submissions := [], nextSubmissionId := 1 }
      "t" "survey" (some "d") 10).1.submissions.length = 0 + 1 :=
  C3_amended_no_state_precondition _ _ _ _ _ rfl (by decide)

/-- C4 counterexample: with a wind_audit intervention already present,
`AvailableTypes` excludes wind_audit (not repeatable), yet the server
accepts a second wind_audit submission and appends it — the claimed
DisallowedCombination validation does not happen. -/
theorem C4_counterexample_second_wind_audit_accepted :
    (let st : FormSubmissionState :=
      { workOrder :=
          { id := 1, workOrderId := "WO-1", technicianUserId := "t",
            status := Status.completed, completedAt := some 5,
            syncedToAirtable := false },
        submissions :=
          [{ id := 1, workOrderId := 1, formType := "wind_audit",
             formData := "d", submittedAt := 3 }],
        nextSubmissionId := 2 }
     let r := formSubmissionRoute st "t" "wind_audit" (some "d") 10
     availableFilter [{ formType := FormType.wind_audit, category := none }]
         FormType.wind_audit = false ∧
       r.2.httpStatus = 200 ∧ r.2.success = some true ∧
       r.1.submissions.length = 2) := by
  decide

/-- C4 (amended): the server-side handler validates the submitted type
only against the static list `['maintenance', 'wind_audit', 'survey']`
(rejecting others with 400 "Invalid form type"), and does not consult
`AvailableTypes`: any type from the static list is accepted and appended
regardless of the interventions already present on the work order. -/
theorem C4_amended_static_type_list_only (st : FormSubmissionState)
    (userId ft d : String) (now : Nat)
    (hOwn : st.workOrder.technicianUserId = userId) :
    (ft ∈ validFormTypes →
      (formSubmissionRoute st userId ft (some d) now).2.success = some true ∧
      (formSubmissionRoute st userId ft (some d) now).1.submissions =
        st.submissions ++
          [{ id := st.nextSubmissionId, workOrderId := st.workOrder.id,
             formType := ft, formData := d, submittedAt := now }]) ∧
    (ft ∉ validFormTypes → ft ≠ "" →
      formSubmissionRoute st userId ft (some d) now =
        (st, { httpStatus := 400, error := some "Invalid form type" })) := by
  constructor
  · intro hft
    have hne : ft ≠ "" := by
      rintro rfl
      simp [validFormTypes] at hft
    refine ⟨?_, ?_⟩ <;> simp [formSubmissionRoute, hne, hft, hOwn]
  · intro hft hne
    simp [formSubmissionRoute, hne, hft]

/-- Witness for C4 (amended): the accepted branch at a second
wind_audit, the rejected branch vacuous. -/
theorem C4_amended_static_type_list_only_witness :
    ("wind_audit" ∈ validFormTypes →
      (formSubmissionRoute
        { workOrder :=
            { id := 1, workOrderId := "WO-1", technicianUserId := "t",
              status := Status.completed, completedAt := some 5,
              syncedToAirtable := false },
          submissions :=
            [{ id := 1, workOrderId := 1, formType := "wind_audit",
               formData := "d", submittedAt := 3 }],
          nextSubmissionId := 2 }
        "t" "wind_audit" (some "d") 10).2.success = some true ∧
      (formSubmissionRoute
        { workOrder :=
            { id := 1, workOrderId := "WO-1", technicianUserId := "t",
              status := Status.completed, completedAt := some 5,
              syncedToAirtable := false },
          submissions :=
            [{ id := 1, workOrderId := 1, formType := "wind_audit",
               formData := "d", submittedAt := 3 }],
          nextSubmissionId := 2 }
        "t" "wind_audit" (some "d") 10).1.submissions =
        [{ id := 1, workOrderId := 1, formType := "wind_audit",
           formData := "d", submittedAt := 3 }] ++
          [{ id := 2, workOrderId := 1, formType := "wind_audit",
             formData := "d", submittedAt := 10 }]) ∧
    ("wind_audit" ∉ validFormTypes → "wind_audit" ≠ "" →
      formSubmissionRoute
        { workOrder :=
            { id := 1, workOrderId := "WO-1", technicianUserId := "t",
              status := Status.completed, completedAt := some 5,
              syncedToAirtable := false },
          submissions :=
            [{ id := 1, workOrderId := 1, formType := "wind_audit",
               formData := "d", submittedAt := 3 }],
          nextSubmissionId := 2 }
        "t" "wind_audit" (some "d") 10 =
        ({ workOrder :=
             { id := 1, workOrderId := "WO-1", technicianUserId := "t",
               status := Status.completed, completedAt := some 5,
               syncedToAirtable := false },
           submissions :=
             [{ id := 1, workOrderId := 1, formType := "wind_audit",
                formData := "d", submittedAt := 3 }],
           nextSubmissionId := 2 },
         { httpStatus := 400, error := some "Invalid form type" })) :=
  C4_amended_static_type_list_only _ _ _ _ _ rfl

/-- Characterization of the parts save loop: the persisted rows (ids
aside) are exactly the entries whose name is non-blank after trimming,
each stored with the trimmed name and with a zero quantity coerced to 1
(JS `quantity || 1`) and any other quantity — negative included —
stored as given. -/
theorem savePartsLoop_map_spec (woId : Nat) (parts : List PartData) :
    ∀ nextId : Nat,
    (savePartsLoop woId nextId parts).map
        (fun q => (q.formSubmissionId, q.partName, q.quantity)) =
      (parts.filter fun p =>
          !(p.partName == "" || jsTrim p.partName == "")).map
        (fun p => (p.formSubmissionId, jsTrim p.partName,
          if p.quantity = 0 then 1 else p.quantity)) := by
  induction parts with
  | nil => intro nextId; rfl
  | cons p rest ih =>
    intro nextId
    by_cases hp : p.partName = "" ∨ jsTrim p.partName = ""
    · simp only [savePartsLoop, List.filter_cons, if_pos hp]
      have hb : (!(p.partName == "" || jsTrim p.partName == "")) = false := by
        rcases hp with h | h <;> simp [h]
      rw [hb]
      exact ih nextId
    · simp only [savePartsLoop, List.filter_cons, if_neg hp]
      have hb : (!(p.partName == "" || jsTrim p.partName == "")) = true := by
        push_neg at hp
        simp [hp.1, hp.2]
      rw [hb]
      simp only [if_pos trivial, List.map_cons]
      rw [ih (nextId + 1)]

/-- C6 counterexample: an entry with quantity 0 and an entry with
quantity -2 (both with valid names and references) each produce a
persisted `parts_used` row — quantity 0 is stored as 1 (JS
`quantity || 1`) and -2 is stored as-is — where the claim requires that
no entry with quantity ≤ 0 ever produces a row. -/
theorem C6_counterexample_nonpositive_quantity_persisted :
    (let wo : WorkOrder :=
      { id := 1, workOrderId := "WO-1", technicianUserId := "t",
        status := Status.completed, completedAt := some 5,
        syncedToAirtable := false }
     let sub : FormSubmissionRow :=
      { id := 1, workOrderId := 1, formType := "maintenance",
        formData := "d", submittedAt := 3 }
     (partsRoute wo "t" [sub]
        [{ formSubmissionId := 1, partName := "bolt", quantity := 0 }] 1).1 =
       [{ id := 1, workOrderId := 1, formSubmissionId := 1,
          partName := "bolt", quantity := 1 }] ∧
     (partsRoute wo "t" [sub]
        [{ formSubmissionId := 1, partName := "washer", quantity := -2 }] 1).1 =
       [{ id := 1, workOrderId := 1, formSubmissionId := 1,
          partName := "washer", quantity := -2 }]) := by
  decide

/-- C6 (amended): in an authorized batch with valid references, only
entries whose name is blank after trimming are silently dropped; every
other entry — entries with quantity ≤ 0 included — is persisted, with
the trimmed name and with a quantity of 0 coerced to 1 (negative
quantities stored as given); the batch as a whole is accepted (200). -/
theorem C6_amended_blank_name_dropped_quantity_kept (wo : WorkOrder)
    (userId : String) (subs : List FormSubmissionRow)
    (parts : List PartData) (nextId : Nat)
    (hOwn : wo.technicianUserId = userId)
    (hFound : (foundSubs subs parts).length = (collectIds parts).length)
    (hBelong : ∀ s ∈ foundSubs subs parts, s.workOrderId = wo.id) :
    (partsRoute wo userId subs parts nextId).2.httpStatus = 200 ∧
    (partsRoute wo userId subs parts nextId).1.map
        (fun q => (q.formSubmissionId, q.partName, q.quantity)) =
      (parts.filter fun p =>
          !(p.partName == "" || jsTrim p.partName == "")).map
        (fun p => (p.formSubmissionId, jsTrim p.partName,
          if p.quantity = 0 then 1 else p.quantity)) := by
  have hNoEx : ¬ ∃ s ∈ foundSubs subs parts, ¬ s.workOrderId = wo.id := by
    rintro ⟨s, hs, hne⟩
    exact hne (hBelong s hs)
  refine ⟨?_, ?_⟩ <;>
    simp [partsRoute, hOwn, hFound, hNoEx, savePartsLoop_map_spec]

/-- Witness for C6 (amended): a batch mixing a blank-name entry, a
zero-quantity entry and an ordinary entry. -/
theorem C6_amended_blank_name_dropped_quantity_kept_witness :
    (partsRoute
      { id := 1, workOrderId := "WO-1", technicianUserId := "t",
        status := Status.completed, completedAt := some 5,
        syncedToAirtable := false } "t"
      [{ id := 1, workOrderId := 1, formType := "maintenance",
         formData := "d", submittedAt := 3 }]
      [{ formSubmissionId := 1, partName := "  ", quantity := 4 },
       { formSubmissionId := 1, partName := "bolt", quantity := 0 },
       { formSubmissionId := 1, partName := " washer ", quantity := 2 }]
      1).2.httpStatus = 200 ∧
    (partsRoute
      { id := 1, workOrderId := "WO-1", technicianUserId := "t",
        status := Status.completed, completedAt := some 5,
        syncedToAirtable := false } "t"
      [{ id := 1, workOrderId := 1, formType := "maintenance",
         formData := "d", submittedAt := 3 }]
      [{ formSubmissionId := 1, partName := "  ", quantity := 4 },
       { formSubmissionId := 1, partName := "bolt", quantity := 0 },
       { formSubmissionId := 1, partName := " washer ", quantity := 2 }]
      1).1.map (fun q => (q.formSubmissionId, q.partName, q.quantity)) =
      (([{ formSubmissionId := 1, partName := "  ", quantity := 4 },
        { formSubmissionId := 1, partName := "bolt", quantity := 0 },
        { formSubmissionId := 1, partName := " washer ", quantity := 2 }] :
          List PartData).filter
          fun p => !(p.partName == "" || jsTrim p.partName == "")).map
        (fun p => (p.formSubmissionId, jsTrim p.partName,
          if p.quantity = 0 then 1 else p.quantity)) :=
  C6_amended_blank_name_dropped_quantity_kept _ _ _ _ _ rfl (by decide)
    (by decide)

/-- C7 counterexample: a parts entry referencing a `survey` submission —
a type with `requiresPartsTracking = false` in the registry — is
persisted and the response carries no error, where the claim requires
the entry to be rejected with UntrackedType. -/
theorem C7_counterexample_untracked_type_persisted :
    (let wo : WorkOrder :=
      { id := 1, workOrderId := "WO-1", technicianUserId := "t",
        status := Status.completed, completedAt := some 5,
        syncedToAirtable := false }
     let sub : FormSubmissionRow :=
      { id := 1, workOrderId := 1, formType := "survey",
        formData := "d", submittedAt := 3 }
     let r := partsRoute wo "t" [sub]
       [{ formSubmissionId := 1, partName := "bolt", quantity := 2 }] 1
     requiresPartsTracking FormType.survey = false ∧
       r.2.httpStatus = 200 ∧ r.2.error = none ∧
       r.1 = [{ id := 1, workOrderId := 1, formSubmissionId := 1,
                partName := "bolt", quantity := 2 }]) := by
  decide

/-- C7 (amended): the parts route never consults the registry: a
non-blank entry referencing a submission whose form type does not track
parts (`survey`, `requiresPartsTracking = false`) is persisted exactly
like any other entry, and the batch succeeds — there is no UntrackedType
re-validation in the handler. -/
theorem C7_amended_no_tracksParts_revalidation (wo : WorkOrder)
    (userId : String) (subs : List FormSubmissionRow)
    (parts : List PartData) (nextId : Nat) (p : PartData)
    (s : FormSubmissionRow)
    (hOwn : wo.technicianUserId = userId)
    (hFound : (foundSubs subs parts).length = (collectIds parts).length)
    (hBelong : ∀ s2 ∈ foundSubs subs parts, s2.workOrderId = wo.id)
    (hp : p ∈ parts)
    (hname : (p.partName == "" || jsTrim p.partName == "") = false)
    (_hs : s ∈ subs) (_hid : s.id = p.formSubmissionId)
    (_htype : s.formType = "survey") :
    requiresPartsTracking FormType.survey = false ∧
    (partsRoute wo userId subs parts nextId).2.httpStatus = 200 ∧
    (p.formSubmissionId, jsTrim p.partName,
        if p.quantity = 0 then 1 else p.quantity) ∈
      (partsRoute wo userId subs parts nextId).1.map
        (fun q => (q.formSubmissionId, q.partName, q.quantity)) := by
  have hNoEx : ¬ ∃ s2 ∈ foundSubs subs parts, ¬ s2.workOrderId = wo.id := by
    rintro ⟨s2, hs2, hne⟩
    exact hne (hBelong s2 hs2)
  refine ⟨rfl, ?_, ?_⟩
  · simp [partsRoute, hOwn, hFound, hNoEx]
  · have hroute : (partsRoute wo userId subs parts nextId).1 =
        savePartsLoop wo.id nextId parts := by
      simp [partsRoute, hOwn, hFound, hNoEx]
    rw [hroute, savePartsLoop_map_spec]
    refine List.mem_map.mpr ⟨p, List.mem_filter.mpr ⟨hp, ?_⟩, rfl⟩
    simp only [hname, Bool.not_false]

/-- Witness for C7 (amended) at a concrete survey-referencing entry. -/
theorem C7_amended_no_tracksParts_revalidation_witness :
    requiresPartsTracking FormType.survey = false ∧
    (partsRoute
      { id := 1, workOrderId := "WO-1", technicianUserId := "t",
        status := Status.completed, completedAt := some 5,
        syncedToAirtable := false } "t"
      [{ id := 1, workOrderId := 1, formType := "survey",
         formData := "d", submittedAt := 3 }]
      [{ formSubmissionId := 1, partName := "bolt", quantity := 2 }]
      1).2.httpStatus = 200 ∧
    ((1 : Nat), jsTrim "bolt",
        if (2 : Int) = 0 then 1 else (2 : Int)) ∈
      (partsRoute
        { id := 1, workOrderId := "WO-1", technicianUserId := "t",
          status := Status.completed, completedAt := some 5,
          syncedToAirtable := false } "t"
        [{ id := 1, workOrderId := 1, formType := "survey",
           formData := "d", submittedAt := 3 }]
        [{ formSubmissionId := 1, partName := "bolt", quantity := 2 }]
        1).1.map (fun q => (q.formSubmissionId, q.partName, q.quantity)) :=
  C7_amended_no_tracksParts_revalidation _ _ _ _ _
    { formSubmissionId := 1, partName := "bolt", quantity := 2 }
    { id := 1, workOrderId := 1, formType := "survey",
      formData := "d", submittedAt := 3 }
    rfl (by decide) (by decide) (by decide) (by decide) (by decide) rfl rfl
